import Mathlib

/-!
Verification of the OTP session-watcher and purchase flow of the
telegramidbot repository, shallowly embedded from
`backend/session_manager.py`, `backend/device_manager.py` and
`backend/bot.py`.

Time is modelled as seconds (`Nat`); Python's `datetime.min` (the default
used by `monitoring_start_times.get(phone, datetime.min)`) is modelled as
`0`, and all concrete message timestamps used below are positive, so the
order structure agrees with the source.  Network effects (Pyrogram calls)
are modelled as explicit inputs: the result of `client.get_me()` is an
`Except` value, and a chat history fetch is an `Except` over the list of
messages of the 777000 conversation, newest first.
-/

namespace TelegramIdBot

/-- One message of the 777000 ("Telegram service") conversation:
its text (`message.text or message.caption or ""`) and its date. -/
structure Msg where
  text : String
  date : Nat
deriving DecidableEq, Repr

/-- A cached OTP entry, as stored in `self.otp_cache[phone]`:
`{'code': ..., 'timestamp': ..., 'message': ...}`. -/
structure OtpEntry where
  code : String
  timestamp : Nat
  message : String
deriving DecidableEq, Repr

/-- The mutable state of `TelegramSessionManager`: the four dictionaries
keyed by phone number.  `active_clients` keeps only the keys (the Pyrogram
client objects themselves are modelled by the explicit network inputs of
each operation). -/
structure ManagerState where
  active_clients : List String
  otp_cache : List (String × OtpEntry)
  login_status : List (String × Bool)
  monitoring_start_times : List (String × Nat)
deriving DecidableEq, Repr

/-- Dictionary lookup on an association list (Python `d[k]` / `d.get(k)`). -/
def alookup {α : Type} (l : List (String × α)) (k : String) : Option α :=
  (l.find? (fun p => p.1 == k)).map Prod.snd

/-- Dictionary assignment `d[k] = v`. -/
def aset {α : Type} (l : List (String × α)) (k : String) (v : α) :
    List (String × α) :=
  (k, v) :: l.filter (fun p => p.1 != k)

/-- Dictionary deletion `del d[k]`. -/
def aerase {α : Type} (l : List (String × α)) (k : String) :
    List (String × α) :=
  l.filter (fun p => p.1 != k)

/-- Whether the first character list is a prefix of the second. -/
def listIsPrefixOf : List Char → List Char → Bool
  | [], _ => true
  | _ :: _, [] => false
  | a :: as, b :: bs => a == b && listIsPrefixOf as bs

/-- Whether `needle` occurs as a contiguous sublist of the second list. -/
def listContainsSub (needle : List Char) : List Char → Bool
  | [] => listIsPrefixOf needle []
  | c :: cs => listIsPrefixOf needle (c :: cs) || listContainsSub needle cs

/-- Lower-casing, modelling Python `str.lower()` on the ASCII text the
watcher inspects. -/
def strLower (s : String) : String := String.mk (s.toList.map Char.toLower)

/-- Substring containment, modelling Python's `needle in hay`. -/
def strContains (hay needle : String) : Bool :=
  listContainsSub needle.toList hay.toList

/-- Word characters of the regex `\b` boundary (`[A-Za-z0-9_]`;
the texts the watcher handles are ASCII). -/
def isWordChar (c : Char) : Bool := c.isAlphanum || c == '_'

/-- Scanner for `re.search(r'\b\d\x7b5,6\x7d\b', text)`: the match of that
pattern is exactly the first maximal run of consecutive decimal digits of
length 5 or 6 whose neighbouring characters (when present) are non-word
characters.  `pb` is the character immediately before the current digit
run (`none` at the start of the text) and `run` the digits read so far. -/
def findCodeLoop (pb : Option Char) (run : List Char) :
    List Char → Option String
  | [] =>
    if (run.length == 5 || run.length == 6)
        && (match pb with | none => true | some p => !isWordChar p) then
      some (String.mk run)
    else none
  | c :: cs =>
    if c.isDigit then
      findCodeLoop pb (run ++ [c]) cs
    else if (run.length == 5 || run.length == 6)
        && (match pb with | none => true | some p => !isWordChar p)
        && !isWordChar c then
      some (String.mk run)
    else
      findCodeLoop (some c) [] cs

/-- The OTP extraction rule applied to a message body
(`re.search(r'\b\d\x7b5,6\x7d\b', text)` of the source). -/
def findCode (text : String) : Option String :=
  findCodeLoop none [] text.toList

/-- The "new login" phrase test of `check_login_status` (line 218 of
`session_manager.py`): the lower-cased text contains `login` together
with `new`, `device` or `successfully`. -/
def isLoginText (t : String) : Bool :=
  let s := strLower t
  strContains s "login"
    && (strContains s "new" || strContains s "device"
        || strContains s "successfully")

/-- The error classification of `check_login_status` (line 241): the
lower-cased error text contains `auth_key_unregistered` or `session`. -/
def isAuthRevokedError (e : String) : Bool :=
  let s := strLower e
  strContains s "auth_key_unregistered" || strContains s "session"

/-- Five minutes, in seconds (`timedelta(minutes=5)`). -/
def fiveMinutes : Nat := 300

/-- `TelegramSessionManager.start_monitoring` (lines 23-116).  `openResult`
is the outcome of creating and starting the Pyrogram client.  If the phone
is already monitored, only `monitoring_start_times[phone]` is refreshed to
`now`.  Otherwise the client is opened; on failure the exception is
re-raised with no dictionary yet mutated, and on success the client is
registered and `login_status[phone]` is initialised to `False` — note the
source does NOT record `monitoring_start_times[phone]` on this path. -/
def start_monitoring (st : ManagerState) (phone : String) (now : Nat)
    (openResult : Except String Unit) :
    ManagerState × Except String Unit :=
  if phone ∈ st.active_clients then
    ({st with
        monitoring_start_times := aset st.monitoring_start_times phone now},
     .ok ())
  else
    match openResult with
    | .error e => (st, .error e)
    | .ok _ =>
      ({st with active_clients := phone :: st.active_clients,
                login_status := aset st.login_status phone false}, .ok ())

/-- `TelegramSessionManager.stop_monitoring` (lines 118-132).  `stopOk`
is whether `client.stop()` succeeds; on failure the `del` of
`active_clients` is skipped (the exception is swallowed).  The OTP cache
and login flag are cleared in every case; `monitoring_start_times` is
never cleared. -/
def stop_monitoring (st : ManagerState) (phone : String) (stopOk : Bool) :
    ManagerState :=
  let st1 :=
    if phone ∈ st.active_clients then
      if stopOk then
        {st with active_clients := st.active_clients.filter (fun q => q != phone)}
      else st
    else st
  {st1 with otp_cache := aerase st1.otp_cache phone,
            login_status := aerase st1.login_status phone}

/-- `TelegramSessionManager.get_otp` (lines 176-183): pure read of the
cache, returning the code iff the entry is strictly less than 5 minutes
old at read time. -/
def get_otp (st : ManagerState) (phone : String) (now : Nat) :
    Option String :=
  match alookup st.otp_cache phone with
  | some e => if now - e.timestamp < fiveMinutes then some e.code else none
  | none => none

/-- `TelegramSessionManager.check_latest_otp` (lines 134-174).  `hist` is
the outcome of `get_chat_history(777000, limit=1)` modelled as the full
777000 history newest first (the loop body runs on its head only).  A code
found in the latest message is returned and cached iff the message is
less than 5 minutes old; on every miss (no client history, no message, no
digit run, stale message, or a fetch error) the cached code is consulted
as fallback.  The source performs no comparison against
`monitoring_start_times`. -/
def check_latest_otp (st : ManagerState) (phone : String) (now : Nat)
    (hist : Except String (List Msg)) : ManagerState × Option String :=
  if phone ∈ st.active_clients then
    match hist with
    | .error _ => (st, get_otp st phone now)
    | .ok msgs =>
      match msgs.head? with
      | none => (st, get_otp st phone now)
      | some m =>
        match findCode m.text with
        | none => (st, get_otp st phone now)
        | some code =>
          if now - m.date < fiveMinutes then
            ({st with
                otp_cache := aset st.otp_cache phone ⟨code, now, m.text⟩},
             some code)
          else (st, get_otp st phone now)
  else (st, none)

/-- `TelegramSessionManager.check_login_status` (lines 190-248).  `probe`
is the outcome of `client.get_me()` (the payload records whether the
returned object is truthy); `hist` the outcome of
`get_chat_history(777000, limit=5)` modelled as the full history, of
which the source scans the first 5 entries.  The watch start time is
`monitoring_start_times.get(phone, datetime.min)`, i.e. default `0`. -/
def check_login_status (st : ManagerState) (phone : String)
    (probe : Except String Bool) (hist : Except String (List Msg)) :
    ManagerState × String :=
  if phone ∈ st.active_clients then
    if (alookup st.login_status phone).getD false then
      (st, "LOGGED_IN")
    else
      match probe with
      | .ok meTruthy =>
        if meTruthy then
          match hist with
          | .ok msgs =>
            let start := (alookup st.monitoring_start_times phone).getD 0
            if (msgs.take 5).any
                (fun m => isLoginText m.text && decide (start < m.date)) then
              ({st with login_status := aset st.login_status phone true},
               "LOGGED_IN")
            else (st, "WAITING")
          | .error _ => (st, "WAITING")
        else (st, "WAITING")
      | .error e =>
        if isAuthRevokedError e then
          ({st with login_status := aset st.login_status phone true},
           "LOGGED_IN")
        else (st, "WAITING")
  else (st, "NOT_MONITORING")

/-- The per-tick polling step of `show_otp_waiting` (`bot.py` lines
1092-1124): check the login status; on `LOGGED_IN` stop monitoring,
otherwise actively poll for an OTP. -/
def show_otp_waiting_step (st : ManagerState) (phone : String)
    (probe : Except String Bool) (hist : Except String (List Msg))
    (now : Nat) (hist2 : Except String (List Msg)) (stopOk : Bool) :
    ManagerState × String × Option String :=
  let r1 := check_login_status st phone probe hist
  if r1.2 == "LOGGED_IN" then
    (stop_monitoring r1.1 phone stopOk, r1.2, none)
  else
    let r2 := check_latest_otp r1.1 phone now hist2
    (r2.1, r1.2, r2.2)

/-- `DeviceManager.terminate_session` (`device_manager.py` lines 76-113).
`connect`, `reset` and `relist` are the outcomes of `client.connect()`,
`invoke(ResetAuthorization(hash=hash_id))` and `invoke(GetAuthorizations())`
(the latter returning the authorization hashes after the reset).  The
result is the value returned or the exception raised, paired with whether
the connection is still open after the `finally` block (the source
disconnects there whenever it is connected). -/
def terminate_session (hashId : Int) (connect : Except String Unit)
    (reset : Except String Unit) (relist : Except String (List Int)) :
    Except String Bool × Bool :=
  match connect with
  | .error e => (.error e, false)
  | .ok _ =>
    let body : Except String Bool :=
      match reset with
      | .error e => .error e
      | .ok _ =>
        match relist with
        | .error e => .error e
        | .ok hashes =>
          if hashId ∈ hashes then
            .error "Session was not terminated"
          else .ok true
    (body, false)

/-- A row of the `users` table (the columns the purchase flow reads). -/
structure DbUser where
  id : Nat
  telegram_id : Int
  balance : ℚ
deriving DecidableEq, Repr

/-- A row of the `countries` table. -/
structure DbCountry where
  id : Nat
  price : ℚ
deriving DecidableEq, Repr

/-- A row of the `accounts` table (the columns the purchase flow reads). -/
structure DbAccount where
  id : Nat
  country_id : Nat
  is_sold : Bool
  type : String
deriving DecidableEq, Repr

/-- A row of the `purchases` table. -/
structure DbPurchase where
  user_id : Nat
  account_id : Nat
  amount : ℚ
deriving DecidableEq, Repr

/-- The relational state the purchase flow touches. -/
structure DbState where
  users : List DbUser
  countries : List DbCountry
  accounts : List DbAccount
  purchases : List DbPurchase
deriving DecidableEq, Repr

/-- `select(User).where(User.telegram_id == tg)` (first matching row). -/
def findUser (db : DbState) (tg : Int) : Option DbUser :=
  db.users.find? (fun u => u.telegram_id == tg)

/-- `select(Country).where(Country.id == cid)`. -/
def findCountry (db : DbState) (cid : Nat) : Option DbCountry :=
  db.countries.find? (fun c => c.id == cid)

/-- `select(Account).where(country_id == cid, is_sold == False,
type == "ID").limit(1)`. -/
def findAvailableAccount (db : DbState) (cid : Nat) : Option DbAccount :=
  db.accounts.find?
    (fun a => a.country_id == cid && a.is_sold == false && a.type == "ID")

/-- Outcome rendered to the buyer by `process_confirm_purchase`. -/
inductive ConfirmOutcome where
  | notFound
  | insufficientBalance
  | outOfStock
  | purchased (accountId : Nat)
deriving DecidableEq, Repr

/-- `process_confirm_purchase` (`bot.py` lines 919-985): load the user and
the country; reject with the deposit prompt when `balance < price`;
otherwise take the first unsold `ID` account of the country (out of stock
when none), decrement the balance by the price, mark the account sold and
insert one `Purchase` row, all committed together. -/
def process_confirm_purchase (db : DbState) (tg : Int) (cid : Nat) :
    DbState × ConfirmOutcome :=
  match findUser db tg, findCountry db cid with
  | some u, some c =>
    if u.balance < c.price then (db, .insufficientBalance)
    else
      match findAvailableAccount db cid with
      | none => (db, .outOfStock)
      | some a =>
        ({db with
            users := db.users.map (fun v =>
              if v.id == u.id then {v with balance := v.balance - c.price}
              else v),
            accounts := db.accounts.map (fun b =>
              if b.id == a.id then {b with is_sold := true} else b),
            purchases := db.purchases ++ [⟨u.id, a.id, c.price⟩]},
         .purchased a.id)
  | _, _ => (db, .notFound)

/-- The empty watcher state (`TelegramSessionManager.__init__`). -/
def initialState : ManagerState := ⟨[], [], [], []⟩

/-- Watcher state after a fresh, successful `start_monitoring` of phone
`+9111` at time 100: the client is live but — as in the source — no watch
start time was recorded. -/
def c1State : ManagerState :=
  (start_monitoring initialState "+9111" 100 (.ok ())).1

/-- A watcher state in which phone `+9222` is live with a recorded watch
start time of 100 and no login detected yet. -/
def c2State : ManagerState :=
  { active_clients := ["+9222"], otp_cache := [],
    login_status := [("+9222", false)],
    monitoring_start_times := [("+9222", 100)] }

/-- A watcher state with no live client for `+9333` but a fresh cached
code for it (captured at 90). -/
def c10State : ManagerState :=
  { initialState with otp_cache := [("+9333", ⟨"55555", 90, "code 55555"⟩)] }

/-- A watcher state in which phone `+9444` is live and already claimed. -/
def c5State : ManagerState :=
  { active_clients := ["+9444"], otp_cache := [],
    login_status := [("+9444", true)],
    monitoring_start_times := [("+9444", 100)] }

/-- A database with one buyer (telegram id 5, balance 100) and one unsold
`ID` account (id 10) of country 1 priced 80 — the scenario of the spec. -/
def c3Db : DbState :=
  ⟨[⟨1, 5, 100⟩], [⟨1, 80⟩], [⟨10, 1, false, "ID"⟩], []⟩

/-! Helper lemmas about the dictionary model. -/

theorem alookup_aset_self {α : Type} (l : List (String × α)) (k : String)
    (v : α) : alookup (aset l k v) k = some v := by
  simp [alookup, aset, List.find?_cons_of_pos]

theorem stop_monitoring_not_mem (st : ManagerState) (phone : String) :
    phone ∉ (stop_monitoring st phone true).active_clients := by
  by_cases h : phone ∈ st.active_clients
  · simp [stop_monitoring, h, List.mem_filter]
  · simp [stop_monitoring, h]

/-- C4: if a live connection already exists for the phone number,
`start_monitoring` returns successfully, opens no second connection and
changes nothing except refreshing the recorded watch start time; and it
always preserves the at-most-one-client-per-phone shape of the
`active_clients` dictionary. -/
theorem start_monitoring_idempotent :
    (∀ (st : ManagerState) (phone : String) (now : Nat)
        (r : Except String Unit), phone ∈ st.active_clients →
        start_monitoring st phone now r =
          ({st with
              monitoring_start_times := aset st.monitoring_start_times phone now},
           .ok ())) ∧
    (∀ (st : ManagerState) (phone : String) (now : Nat)
        (r : Except String Unit), st.active_clients.Nodup →
        (start_monitoring st phone now r).1.active_clients.Nodup) := by
  constructor
  · intro st phone now r h
    simp [start_monitoring, h]
  · intro st phone now r h
    by_cases hm : phone ∈ st.active_clients
    · simp [start_monitoring, hm, h]
    · cases r with
      | error e => simp [start_monitoring, hm, h]
      | ok u => simp [start_monitoring, hm, h]

/-- Witness for `start_monitoring_idempotent` at the live phone `+9222`. -/
theorem start_monitoring_idempotent_witness :
    start_monitoring c2State "+9222" 200 (.ok ()) =
      ({c2State with
          monitoring_start_times := aset c2State.monitoring_start_times "+9222" 200},
       .ok ()) ∧
    (start_monitoring c2State "+9222" 200 (.ok ())).1.active_clients.Nodup :=
  ⟨start_monitoring_idempotent.1 c2State "+9222" 200 (.ok ()) (by decide),
   start_monitoring_idempotent.2 c2State "+9222" 200 (.ok ()) (by decide)⟩

/-- C9: when no live client exists for the phone number and opening the
connection fails, `start_monitoring` re-raises the error and the manager
state — client registry, OTP cache, login flags and watch start times —
is exactly the state before the call. -/
theorem start_monitoring_error_atomic (st : ManagerState) (phone : String)
    (now : Nat) (e : String) (h : phone ∉ st.active_clients) :
    start_monitoring st phone now (.error e) = (st, .error e) := by
  simp [start_monitoring, h]

/-- Witness for `start_monitoring_error_atomic` on the empty manager. -/
theorem start_monitoring_error_atomic_witness :
    start_monitoring initialState "+9111" 100 (.error "ConnectionError") =
      (initialState, .error "ConnectionError") :=
  start_monitoring_error_atomic initialState "+9111" 100 "ConnectionError"
    (by decide)

/-- C10: `check_latest_otp` on a phone number with no live client returns
`none` at once, for every possible 777000 history — in particular it does
not consult the cache, even when a still-fresh code is cached there. -/
theorem check_latest_otp_not_watching (st : ManagerState) (phone : String)
    (now : Nat) (h : phone ∉ st.active_clients) :
    ∀ hist, check_latest_otp st phone now hist = (st, none) := by
  intro hist
  simp [check_latest_otp, h]

/-- Witness for `check_latest_otp_not_watching`: phone `+9333` is not
watched but has a fresh cached code (`get_otp` would serve it), and the
poll still returns `none`. -/
theorem check_latest_otp_not_watching_witness :
    check_latest_otp c10State "+9333" 100 (.ok [⟨"code 99999", 99⟩]) =
      (c10State, none) ∧
    get_otp c10State "+9333" 100 = some "55555" :=
  ⟨check_latest_otp_not_watching c10State "+9333" 100 (by decide) _,
   by decide⟩

/-- C1 (code bug): after a fresh, successful `start_monitoring` (no live
session existed), no watch start time has been recorded, and a 777000
"new login" notification dated 50 — before the watch was opened at 100 —
makes `check_login_status` return `LOGGED_IN`, because the comparison
falls back to `datetime.min`.  The spec (and the source's own comments)
require such pre-watch notifications to be ignored. -/
theorem start_time_not_recorded_bug :
    alookup c1State.monitoring_start_times "+9111" = none ∧
    (check_login_status c1State "+9111" (.ok true)
        (.ok [⟨"New login from device iPhone", 50⟩])).2 = "LOGGED_IN" := by
  decide

/-- C2 (counterexample): phone `+9222` has a recorded watch start time of
100, and the latest 777000 message is dated 95 — older than the watch
start — yet `check_latest_otp` at time 110 surfaces its code `123456`,
because the source compares only against the 5-minute window and never
against the watch start time.  This refutes the claim that the code is
returned only if the message is newer than the watch start. -/
theorem check_latest_otp_ignores_watch_start :
    (alookup c2State.monitoring_start_times "+9222").getD 0 = 100 ∧
    (check_latest_otp c2State "+9222" 110
        (.ok [⟨"Your login code: 123456. Do not share", 95⟩])).2 =
      some "123456" := by
  decide

/-- C2 (amended): for every watched phone number, `check_latest_otp`
takes the most recent 777000 message, extracts the first maximal run of
5-6 decimal digits from its body, and returns it iff the message is less
than 5 minutes old — irrespective of the recorded watch start time (the
theorem quantifies over all manager states, hence over all recorded
start times); on success it caches the code with its capture time, and on
every kind of miss it falls back to the cached code via `get_otp`. -/
theorem check_latest_otp_spec :
    (∀ (st : ManagerState) (phone : String) (now : Nat) (m : Msg)
        (rest : List Msg) (c : String), phone ∈ st.active_clients →
        findCode m.text = some c → now - m.date < fiveMinutes →
        check_latest_otp st phone now (.ok (m :: rest)) =
          ({st with otp_cache := aset st.otp_cache phone ⟨c, now, m.text⟩},
           some c)) ∧
    (∀ (st : ManagerState) (phone : String) (now : Nat) (m : Msg)
        (rest : List Msg), phone ∈ st.active_clients →
        findCode m.text = none →
        check_latest_otp st phone now (.ok (m :: rest)) =
          (st, get_otp st phone now)) ∧
    (∀ (st : ManagerState) (phone : String) (now : Nat) (m : Msg)
        (rest : List Msg) (c : String), phone ∈ st.active_clients →
        findCode m.text = some c → fiveMinutes ≤ now - m.date →
        check_latest_otp st phone now (.ok (m :: rest)) =
          (st, get_otp st phone now)) ∧
    (∀ (st : ManagerState) (phone : String) (now : Nat) (e : String),
        phone ∈ st.active_clients →
        check_latest_otp st phone now (.error e) =
          (st, get_otp st phone now)) ∧
    (∀ (st : ManagerState) (phone : String) (now : Nat),
        phone ∈ st.active_clients →
        check_latest_otp st phone now (.ok []) =
          (st, get_otp st phone now)) := by
  refine ⟨?_, ?_, ?_, ?_, ?_⟩
  · intro st phone now m rest c hmem hcode hfresh
    simp [check_latest_otp, hmem, hcode, hfresh]
  · intro st phone now m rest hmem hcode
    simp [check_latest_otp, hmem, hcode]
  · intro st phone now m rest c hmem hcode hstale
    simp [check_latest_otp, hmem, hcode, Nat.not_lt.mpr hstale]
  · intro st phone now e hmem
    simp [check_latest_otp, hmem]
  · intro st phone now hmem
    simp [check_latest_otp, hmem]

/-- Witness for `check_latest_otp_spec`: the fresh-message case at phone
`+9222`, time 110, message `654321` dated 105 (after the watch start of
100, matching the spec scenario). -/
theorem check_latest_otp_spec_witness :
    check_latest_otp c2State "+9222" 110
        (.ok [⟨"Your login code: 654321. Do not share", 105⟩]) =
      ({c2State with
          otp_cache := aset c2State.otp_cache "+9222"
            ⟨"654321", 110, "Your login code: 654321. Do not share"⟩},
       some "654321") :=
  check_latest_otp_spec.1 c2State "+9222" 110
    ⟨"Your login code: 654321. Do not share", 105⟩ [] "654321"
    (by decide) (by decide) (by decide)

/-- C7: `get_otp` is a pure read (it takes no network input and returns
no modified state): it yields the cached code iff the entry was captured
strictly less than 5 minutes before the read; and whenever the cached
entry is 5 minutes old or more, anything `check_latest_otp` returns must
be justified by a fresh first 777000 message — a stale cached code is
never used as its fallback result. -/
theorem get_otp_freshness :
    (∀ (st : ManagerState) (phone : String) (now : Nat) (c : String),
        get_otp st phone now = some c ↔
          ∃ e, alookup st.otp_cache phone = some e ∧ e.code = c ∧
            now - e.timestamp < fiveMinutes) ∧
    (∀ (st : ManagerState) (phone : String) (now : Nat) (e : OtpEntry)
        (hist : Except String (List Msg)) (c : String),
        alookup st.otp_cache phone = some e →
        fiveMinutes ≤ now - e.timestamp →
        (check_latest_otp st phone now hist).2 = some c →
        ∃ m rest, hist = .ok (m :: rest) ∧ findCode m.text = some c ∧
          now - m.date < fiveMinutes) := by
  constructor
  · intro st phone now c
    unfold get_otp
    cases h : alookup st.otp_cache phone with
    | none => simp
    | some e =>
      constructor
      · intro hres
        by_cases hf : now - e.timestamp < fiveMinutes
        · refine ⟨e, rfl, ?_, hf⟩
          simp [hf] at hres
          exact hres
        · simp [hf] at hres
      · rintro ⟨e', he', hc, hf⟩
        cases he'
        simp [hf, hc]
  · intro st phone now e hist c hcache hstale hres
    have hold : get_otp st phone now = none := by
      simp [get_otp, hcache, Nat.not_lt.mpr hstale]
    by_cases hmem : phone ∈ st.active_clients
    · cases hist with
      | error err =>
        rw [check_latest_otp_spec.2.2.2.1 st phone now err hmem] at hres
        simp [hold] at hres
      | ok msgs =>
        cases msgs with
        | nil =>
          rw [check_latest_otp_spec.2.2.2.2 st phone now hmem] at hres
          simp [hold] at hres
        | cons m rest =>
          cases hcode : findCode m.text with
          | none =>
            rw [check_latest_otp_spec.2.1 st phone now m rest hmem hcode]
              at hres
            simp [hold] at hres
          | some code =>
            by_cases hf : now - m.date < fiveMinutes
            · rw [check_latest_otp_spec.1 st phone now m rest code hmem
                hcode hf] at hres
              simp at hres
              exact ⟨m, rest, rfl, hres ▸ hcode, hf⟩
            · rw [check_latest_otp_spec.2.2.1 st phone now m rest code hmem
                hcode (Nat.not_lt.mp hf)] at hres
              simp [hold] at hres
    · rw [check_latest_otp_not_watching st phone now hmem hist] at hres
      simp at hres

/-- Witness for `get_otp_freshness`: a code cached at time 0 is served at
time 299 (4 min 59 s) and refused at time 301 (5 min 1 s), and with the
stale entry the poll's result at time 301 is justified by a fresh
message. -/
theorem get_otp_freshness_witness :
    get_otp c10State "+9333" 389 = some "55555" ∧
    (∃ m rest,
        (.ok [⟨"code 77777", 390⟩] : Except String (List Msg)) =
          .ok (m :: rest) ∧
        findCode m.text = some "77777" ∧ (391 : Nat) - m.date < fiveMinutes) :=
  ⟨(get_otp_freshness.1 c10State "+9333" 389 "55555").mpr
      ⟨⟨"55555", 90, "code 55555"⟩, by decide, rfl, by decide⟩,
   get_otp_freshness.2 { c10State with active_clients := ["+9333"] }
      "+9333" 391 ⟨"55555", 90, "code 55555"⟩ (.ok [⟨"code 77777", 390⟩])
      "77777" (by decide) (by decide) (by decide)⟩

/-- C6: `check_login_status` is total (its result is always one of the
three status strings, never an exception): with no live client it returns
`NOT_MONITORING`; for a watched, not-yet-claimed phone a probe failure of
the source's authentication-revoked class marks the session claimed and
returns `LOGGED_IN`, a probe failure outside that class returns `WAITING`
with no state change, and a failure of the message scan is swallowed into
`WAITING` as well. -/
theorem check_login_status_error_routing :
    (∀ (st : ManagerState) (phone : String) (probe : Except String Bool)
        (hist : Except String (List Msg)), phone ∉ st.active_clients →
        check_login_status st phone probe hist = (st, "NOT_MONITORING")) ∧
    (∀ (st : ManagerState) (phone : String) (probe : Except String Bool)
        (hist : Except String (List Msg)),
        (check_login_status st phone probe hist).2 = "NOT_MONITORING" ∨
        (check_login_status st phone probe hist).2 = "LOGGED_IN" ∨
        (check_login_status st phone probe hist).2 = "WAITING") ∧
    (∀ (st : ManagerState) (phone : String) (e : String)
        (hist : Except String (List Msg)), phone ∈ st.active_clients →
        (alookup st.login_status phone).getD false = false →
        isAuthRevokedError e = true →
        check_login_status st phone (.error e) hist =
          ({st with login_status := aset st.login_status phone true},
           "LOGGED_IN")) ∧
    (∀ (st : ManagerState) (phone : String) (e : String)
        (hist : Except String (List Msg)), phone ∈ st.active_clients →
        (alookup st.login_status phone).getD false = false →
        isAuthRevokedError e = false →
        check_login_status st phone (.error e) hist = (st, "WAITING")) ∧
    (∀ (st : ManagerState) (phone : String) (me : Bool) (err : String),
        phone ∈ st.active_clients →
        (alookup st.login_status phone).getD false = false →
        check_login_status st phone (.ok me) (.error err) =
          (st, "WAITING")) := by
  refine ⟨?_, ?_, ?_, ?_, ?_⟩
  · intro st phone probe hist h
    simp [check_login_status, h]
  · intro st phone probe hist
    by_cases hmem : phone ∈ st.active_clients
    · by_cases hflag : (alookup st.login_status phone).getD false
      · simp [check_login_status, hmem, hflag]
      · cases probe with
        | error e =>
          by_cases hrev : isAuthRevokedError e
          · simp [check_login_status, hmem, hflag, hrev]
          · simp [check_login_status, hmem, hflag, hrev]
        | ok me =>
          cases me with
          | false => simp [check_login_status, hmem, hflag]
          | true =>
            cases hist with
            | error err => simp [check_login_status, hmem, hflag]
            | ok msgs =>
              by_cases hfound : (msgs.take 5).any (fun m =>
                  isLoginText m.text &&
                  decide ((alookup st.monitoring_start_times phone).getD 0
                    < m.date))
              · simp [check_login_status, hmem, hflag, hfound]
              · simp [check_login_status, hmem, hflag, hfound]
    · simp [check_login_status, hmem]
  · intro st phone e hist hmem hflag hrev
    simp [check_login_status, hmem, hflag, hrev]
  · intro st phone e hist hmem hflag hrev
    simp [check_login_status, hmem, hflag, hrev]
  · intro st phone me err hmem hflag
    cases me with
    | false => simp [check_login_status, hmem, hflag]
    | true => simp [check_login_status, hmem, hflag]

/-- Witness for `check_login_status_error_routing`: `NOT_MONITORING` on
the empty manager; a revoked-class probe error (`SESSION_REVOKED`) on the
watched phone `+9222` yields `LOGGED_IN`; a transient error (FloodWait)
yields `WAITING`. -/
theorem check_login_status_error_routing_witness :
    check_login_status initialState "+9000" (.ok true) (.ok []) =
      (initialState, "NOT_MONITORING") ∧
    check_login_status c2State "+9222"
        (.error "Telegram says: [401 SESSION_REVOKED]") (.ok []) =
      ({c2State with login_status := aset c2State.login_status "+9222" true},
       "LOGGED_IN") ∧
    check_login_status c2State "+9222"
        (.error "A wait of 30 seconds is required (FLOOD_WAIT)") (.ok []) =
      (c2State, "WAITING") :=
  ⟨check_login_status_error_routing.1 initialState "+9000" (.ok true)
      (.ok []) (by decide),
   check_login_status_error_routing.2.2.1 c2State "+9222"
      "Telegram says: [401 SESSION_REVOKED]" (.ok []) (by decide) (by decide)
      (by decide),
   check_login_status_error_routing.2.2.2.1 c2State "+9222"
      "A wait of 30 seconds is required (FLOOD_WAIT)" (.ok []) (by decide)
      (by decide) (by decide)⟩

/-- C5: the claimed flag is terminal until `stop_monitoring`: while the
phone is watched and flagged, every `check_login_status` call returns
`LOGGED_IN` and changes nothing; whenever `check_login_status` answers
`LOGGED_IN` the flag is set in the resulting state; the flag is never
reset by `check_login_status`; and the polling step of the bot releases
the connection as soon as it observes `LOGGED_IN` (given the close call
succeeds). -/
theorem login_claim_terminal :
    (∀ (st : ManagerState) (phone : String) (probe : Except String Bool)
        (hist : Except String (List Msg)), phone ∈ st.active_clients →
        (alookup st.login_status phone).getD false = true →
        check_login_status st phone probe hist = (st, "LOGGED_IN")) ∧
    (∀ (st : ManagerState) (phone : String) (probe : Except String Bool)
        (hist : Except String (List Msg)), phone ∈ st.active_clients →
        (check_login_status st phone probe hist).2 = "LOGGED_IN" →
        (alookup (check_login_status st phone probe hist).1.login_status
            phone).getD false = true) ∧
    (∀ (st : ManagerState) (phone : String) (probe : Except String Bool)
        (hist : Except String (List Msg)),
        (alookup st.login_status phone).getD false = true →
        (alookup (check_login_status st phone probe hist).1.login_status
            phone).getD false = true) ∧
    (∀ (st : ManagerState) (phone : String) (probe : Except String Bool)
        (hist : Except String (List Msg)) (now : Nat)
        (hist2 : Except String (List Msg)),
        (show_otp_waiting_step st phone probe hist now hist2 true).2.1 =
          "LOGGED_IN" →
        phone ∉
          (show_otp_waiting_step st phone probe hist now hist2 true).1.active_clients) := by
  have hset : ∀ (st : ManagerState) (phone : String),
      (alookup (aset st.login_status phone true) phone).getD false = true := by
    intro st phone
    rw [alookup_aset_self]
    rfl
  have hmain : ∀ (st : ManagerState) (phone : String)
      (probe : Except String Bool) (hist : Except String (List Msg)),
      (check_login_status st phone probe hist).2 = "LOGGED_IN" →
      (alookup (check_login_status st phone probe hist).1.login_status
          phone).getD false = true := by
    intro st phone probe hist hres
    by_cases hmem : phone ∈ st.active_clients
    · by_cases hflag : (alookup st.login_status phone).getD false
      · simp [check_login_status, hmem, hflag]
      · cases probe with
        | error e =>
          by_cases hrev : isAuthRevokedError e
          · simp [check_login_status, hmem, hflag, hrev, hset]
          · simp [check_login_status, hmem, hflag, hrev] at hres
        | ok me =>
          cases me with
          | false => simp [check_login_status, hmem, hflag] at hres
          | true =>
            cases hist with
            | error err => simp [check_login_status, hmem, hflag] at hres
            | ok msgs =>
              by_cases hfound : (msgs.take 5).any (fun m =>
                  isLoginText m.text &&
                  decide ((alookup st.monitoring_start_times phone).getD 0
                    < m.date))
              · simp [check_login_status, hmem, hflag, hfound, hset]
              · simp [check_login_status, hmem, hflag, hfound] at hres
    · simp [check_login_status, hmem] at hres
  have hterm : ∀ (st : ManagerState) (phone : String)
      (probe : Except String Bool) (hist : Except String (List Msg)),
      phone ∈ st.active_clients →
      (alookup st.login_status phone).getD false = true →
      check_login_status st phone probe hist = (st, "LOGGED_IN") := by
    intro st phone probe hist hmem hflag
    simp [check_login_status, hmem, hflag]
  refine ⟨hterm, ?_, ?_, ?_⟩
  · intro st phone probe hist _ hres
    exact hmain st phone probe hist hres
  · intro st phone probe hist hflag
    by_cases hmem : phone ∈ st.active_clients
    · rw [hterm st phone probe hist hmem hflag]
      exact hflag
    · have hnm : check_login_status st phone probe hist =
          (st, "NOT_MONITORING") := by
        simp [check_login_status, hmem]
      rw [hnm]
      exact hflag
  · intro st phone probe hist now hist2 hres
    unfold show_otp_waiting_step at hres ⊢
    by_cases hlog : (check_login_status st phone probe hist).2 == "LOGGED_IN"
    · simp only [hlog, if_true]
      exact stop_monitoring_not_mem _ phone
    · simp only [hlog, if_false] at hres
      exact absurd hres (by simp at hlog; exact hlog)

/-- Witness for `login_claim_terminal` at the claimed phone `+9444`:
the next status check still answers `LOGGED_IN` without touching the
state, and the polling step then leaves no live connection. -/
theorem login_claim_terminal_witness :
    check_login_status c5State "+9444" (.ok true) (.ok []) =
      (c5State, "LOGGED_IN") ∧
    "+9444" ∉
      (show_otp_waiting_step c5State "+9444" (.ok true) (.ok []) 0 (.ok [])
          true).1.active_clients :=
  ⟨login_claim_terminal.1 c5State "+9444" (.ok true) (.ok []) (by decide)
      (by decide),
   login_claim_terminal.2.2.2 c5State "+9444" (.ok true) (.ok []) 0 (.ok [])
      (by decide)⟩

/-- C8: `terminate_session` returns `true` only when the connection was
opened, the reset call went through and the fresh re-listing no longer
contains the revocation handle; if the handle still appears on re-list,
or the reset call fails, it raises instead of returning a value; and on
every path the connection is closed (never left open) after the
`finally` block. -/
theorem terminate_session_confirms_absence :
    (∀ (hid : Int) (connect reset : Except String Unit)
        (relist : Except String (List Int)) (b : Bool),
        (terminate_session hid connect reset relist).1 = .ok b →
        b = true ∧ connect = .ok () ∧ reset = .ok () ∧
        ∃ hashes, relist = .ok hashes ∧ hid ∉ hashes) ∧
    (∀ (hid : Int) (connect reset : Except String Unit)
        (hashes : List Int), hid ∈ hashes →
        ∃ msg, (terminate_session hid connect reset (.ok hashes)).1 =
          .error msg) ∧
    (∀ (hid : Int) (connect : Except String Unit) (e : String)
        (relist : Except String (List Int)),
        ∃ msg, (terminate_session hid connect (.error e) relist).1 =
          .error msg) ∧
    (∀ (hid : Int) (connect reset : Except String Unit)
        (relist : Except String (List Int)),
        (terminate_session hid connect reset relist).2 = false) := by
  refine ⟨?_, ?_, ?_, ?_⟩
  · intro hid connect reset relist b hok
    cases connect with
    | error e => simp [terminate_session] at hok
    | ok u =>
      cases u
      cases reset with
      | error e => simp [terminate_session] at hok
      | ok u' =>
        cases u'
        cases relist with
        | error e => simp [terminate_session] at hok
        | ok hashes =>
          by_cases hmem : hid ∈ hashes
          · simp [terminate_session, hmem] at hok
          · simp [terminate_session, hmem] at hok
            exact ⟨hok, rfl, rfl, hashes, rfl, hmem⟩
  · intro hid connect reset hashes hmem
    cases connect with
    | error e => exact ⟨e, rfl⟩
    | ok u =>
      cases u
      cases reset with
      | error e => exact ⟨e, rfl⟩
      | ok u' =>
        cases u'
        exact ⟨"Session was not terminated", by simp [terminate_session, hmem]⟩
  · intro hid connect e relist
    cases connect with
    | error e' => exact ⟨e', rfl⟩
    | ok u => cases u; exact ⟨e, rfl⟩
  · intro hid connect reset relist
    cases connect with
    | error e => rfl
    | ok u => cases u; rfl

/-- Witness for `terminate_session_confirms_absence`: with handle 7 still
listed after the reset the call raises, and with it absent the call
returns `true`; the connection is closed in both cases. -/
theorem terminate_session_confirms_absence_witness :
    (∃ msg, (terminate_session 7 (.ok ()) (.ok ()) (.ok [7, 9])).1 =
      .error msg) ∧
    ((true = true) ∧
      ((Except.ok () : Except String Unit) = .ok ()) ∧
      ((Except.ok () : Except String Unit) = .ok ()) ∧
      ∃ hashes, (Except.ok [9] : Except String (List Int)) = .ok hashes ∧
        (7 : Int) ∉ hashes) ∧
    (terminate_session 7 (.ok ()) (.ok ()) (.ok [7, 9])).2 = false :=
  ⟨terminate_session_confirms_absence.2.1 7 (.ok ()) (.ok ()) [7, 9]
      (by decide),
   terminate_session_confirms_absence.1 7 (.ok ()) (.ok ()) (.ok [9]) true
      (by rfl),
   terminate_session_confirms_absence.2.2.2 7 (.ok ()) (.ok ()) (.ok [7, 9])⟩

/-- A row update that does not touch `telegram_id` commutes with the
lookup by `telegram_id`. -/
theorem findUser_map (l : List DbUser) (tg : Int) (f : DbUser → DbUser)
    (hf : ∀ v, (f v).telegram_id = v.telegram_id) :
    (l.map f).find? (fun v => v.telegram_id == tg) =
      (l.find? (fun v => v.telegram_id == tg)).map f := by
  induction l with
  | nil => rfl
  | cons a t ih =>
    simp only [List.map_cons, List.find?_cons, hf a]
    by_cases h : (a.telegram_id == tg) = true
    · simp [h]
    · simp only [Bool.not_eq_true] at h
      simp [h, ih]

/-- C3: confirming a purchase with sufficient balance atomically (in one
database step) decrements the buyer's balance by exactly the price, marks
the chosen account sold and appends exactly one `Purchase` row; the sold
account can never be selected again, so a later confirmation either picks
a different account or — when none is left — is rejected as out of stock
with no state change; and an insufficient balance is rejected (routed to
deposit) with no state change. -/
theorem process_confirm_purchase_spec :
    (∀ (db : DbState) (tg : Int) (cid : Nat) (u : DbUser) (c : DbCountry)
        (a : DbAccount),
        findUser db tg = some u → findCountry db cid = some c →
        c.price ≤ u.balance → findAvailableAccount db cid = some a →
        ∃ db', process_confirm_purchase db tg cid = (db', .purchased a.id) ∧
          findUser db' tg = some {u with balance := u.balance - c.price} ∧
          (∀ b ∈ db'.accounts, b.id = a.id → b.is_sold = true) ∧
          db'.purchases = db.purchases ++ [⟨u.id, a.id, c.price⟩] ∧
          (∀ b, findAvailableAccount db' cid = some b → b.id ≠ a.id)) ∧
    (∀ (db : DbState) (tg : Int) (cid : Nat) (u : DbUser) (c : DbCountry),
        findUser db tg = some u → findCountry db cid = some c →
        u.balance < c.price →
        process_confirm_purchase db tg cid = (db, .insufficientBalance)) ∧
    (∀ (db : DbState) (tg : Int) (cid : Nat) (u : DbUser) (c : DbCountry),
        findUser db tg = some u → findCountry db cid = some c →
        c.price ≤ u.balance → findAvailableAccount db cid = none →
        process_confirm_purchase db tg cid = (db, .outOfStock)) := by
  refine ⟨?_, ?_, ?_⟩
  · intro db tg cid u c a hu hc hb ha
    refine ⟨{db with
        users := db.users.map (fun v =>
          if v.id == u.id then {v with balance := v.balance - c.price}
          else v),
        accounts := db.accounts.map (fun b =>
          if b.id == a.id then {b with is_sold := true} else b),
        purchases := db.purchases ++ [⟨u.id, a.id, c.price⟩]},
      ?_, ?_, ?_, rfl, ?_⟩
    · unfold process_confirm_purchase
      rw [hu, hc]
      simp only [not_lt.mpr hb, if_false, ha]
    · unfold findUser at hu ⊢
      rw [findUser_map db.users tg _ (by intro v; split <;> rfl), hu]
      simp
    · intro b hbmem hbid
      rcases List.mem_map.mp hbmem with ⟨x, hx, hfx⟩
      by_cases hxa : (x.id == a.id) = true
      · rw [← hfx]
        simp [hxa]
      · simp only [Bool.not_eq_true] at hxa
        rw [← hfx] at hbid
        simp [hxa] at hbid
        exact absurd (by simpa using hbid) (by simpa using hxa)
    · intro b hfind
      intro hbid
      have hmem := List.mem_of_find?_eq_some hfind
      have hp := List.find?_some hfind
      simp only [Bool.and_eq_true, beq_iff_eq] at hp
      have hsold : b.is_sold = true := by
        rcases List.mem_map.mp hmem with ⟨x, hx, hfx⟩
        by_cases hxa : (x.id == a.id) = true
        · rw [← hfx]; simp [hxa]
        · simp only [Bool.not_eq_true] at hxa
          rw [← hfx] at hbid
          simp [hxa] at hbid
          exact absurd (by simpa using hbid) (by simpa using hxa)
      rw [hsold] at hp
      simp at hp
  · intro db tg cid u c hu hc hlt
    unfold process_confirm_purchase
    rw [hu, hc]
    simp [hlt]
  · intro db tg cid u c hu hc hb hnone
    unfold process_confirm_purchase
    rw [hu, hc]
    simp only [not_lt.mpr hb, if_false, hnone]

/-- Witness for `process_confirm_purchase_spec` on the spec scenario: a
buyer with balance 100 confirms at price 80, wins account 10, ends with
balance 20 and one `Purchase` row; a second sufficiently funded buyer is
then out of stock. -/
theorem process_confirm_purchase_spec_witness :
    (∃ db', process_confirm_purchase c3Db 5 1 = (db', .purchased 10) ∧
      findUser db' 5 = some ⟨1, 5, 20⟩ ∧
      (∀ b ∈ db'.accounts, b.id = 10 → b.is_sold = true) ∧
      db'.purchases = [⟨1, 10, 80⟩] ∧
      (∀ b, findAvailableAccount db' 1 = some b → b.id ≠ 10)) ∧
    process_confirm_purchase
        {c3Db with
          users := [⟨1, 5, 100⟩],
          accounts := [⟨10, 1, true, "ID"⟩]} 5 1 =
      ({c3Db with
          users := [⟨1, 5, 100⟩],
          accounts := [⟨10, 1, true, "ID"⟩]}, .outOfStock) := by
  constructor
  · have h := process_confirm_purchase_spec.1 c3Db 5 1 ⟨1, 5, 100⟩ ⟨1, 80⟩
      ⟨10, 1, false, "ID"⟩ rfl rfl (by norm_num) rfl
    rcases h with ⟨db', hrun, huser, hacc, hpur, hsel⟩
    refine ⟨db', hrun, ?_, hacc, hpur, hsel⟩
    convert huser using 3
    norm_num
  · exact process_confirm_purchase_spec.2.2
      {c3Db with users := [⟨1, 5, 100⟩], accounts := [⟨10, 1, true, "ID"⟩]}
      5 1 ⟨1, 5, 100⟩ ⟨1, 80⟩ rfl rfl (by norm_num) rfl

end TelegramIdBot
